import Mathlib

/-!
Verification development for the csharp-portfolio Hugo theme scripts.

The modules embedded here are:
* `assets/js/theme-toggle.js` — the `ThemeToggle` class (theme resolution,
  persistence in `localStorage`, ARIA updates of toggle buttons);
* `assets/js/experience-calculator.js` — the `ContactFormValidator` class
  (field validation, submission with service fallback and `mailto:`);
* `assets/js/accessibility.js` — the standalone `validateField` helper and
  the mobile-navigation focus handling;
* `assets/js/navigation.js` — mobile navigation open/close and focus trap;
* the service worker shipped with the theme (install/activate/fetch).

Browser state (the DOM attributes the scripts read and write, `localStorage`,
the media-query flag) is modelled explicitly as Lean structures, and each
event handler becomes a total function on that state.  A `try`/`catch` in the
source is modelled by an `Except`-returning primitive together with the
handler that consumes it.
-/

namespace ThemeToggle

/-- Constructor field `this.storageKey` of `ThemeToggle`. -/
def storageKey : String := "csharp-portfolio-theme"

/-- Constructor field `this.themes.LIGHT`. -/
def themeLight : String := "light"

/-- Constructor field `this.themes.DARK`. -/
def themeDark : String := "dark"

/-- Constructor field `this.themes.AUTO`. -/
def themeAuto : String := "auto"

/-- `Object.values(this.themes)`, in declaration order. -/
def themeValues : List String := [themeLight, themeDark, themeAuto]

/-- A DOM element matching `[data-theme-toggle]`, with the attributes and
classes that `updateButtonAria` / `updateButtonVisual` touch.  The optional
`textContent` / `iconContent` model the `.theme-toggle__text` /
`.theme-toggle__icon` child elements (`none` when the child is absent). -/
structure ToggleButton where
  ariaPressed : Option String
  ariaLabel : Option String
  classDark : Bool
  classLight : Bool
  textContent : Option String
  iconContent : Option String
deriving DecidableEq

/-- The browser state the `ThemeToggle` class interacts with:
`localStorage` (an association list of key/value pairs), the two failure
flags that decide whether a storage access throws, the
`prefers-color-scheme: dark` media-query result, the `data-theme` attribute
on `document.documentElement` (`none` when the attribute is removed), and
the `[data-theme-toggle]` buttons. -/
structure DomState where
  storage : List (String × String)
  storageReadFails : Bool
  storageWriteFails : Bool
  systemDark : Bool
  dataTheme : Option String
  buttons : List ToggleButton
deriving DecidableEq

/-- Association-list lookup: `localStorage.getItem` semantics (also reused
for the service-worker cache model below). -/
def lsGet {α : Type} (s : List (String × α)) (k : String) : Option α :=
  match s with
  | [] => none
  | p :: rest => if p.1 = k then some p.2 else lsGet rest k

/-- Association-list update: `localStorage.setItem` semantics. -/
def lsSet {α : Type} (s : List (String × α)) (k : String) (v : α) :
    List (String × α) :=
  match s with
  | [] => [(k, v)]
  | p :: rest => if p.1 = k then (k, v) :: rest else p :: lsSet rest k v

/-- Raw `localStorage.getItem(key)`: throws when the read-failure flag is
set, otherwise returns the stored value or `null`. -/
def rawGetItem (st : DomState) (k : String) : Except String (Option String) :=
  if st.storageReadFails then Except.error "storage read failed"
  else Except.ok (lsGet st.storage k)

/-- Raw `localStorage.setItem(key, v)`: throws when the write-failure flag is
set, otherwise updates the store. -/
def rawSetItem (st : DomState) (k v : String) : Except String DomState :=
  if st.storageWriteFails then Except.error "storage write failed"
  else Except.ok { st with storage := lsSet st.storage k v }

/-- `ThemeToggle.getStoredTheme`: the `try`/`catch` around
`localStorage.getItem(this.storageKey)`; a thrown read is caught (a warning
is logged) and `null` is returned. -/
def getStoredTheme (st : DomState) : Option String :=
  match rawGetItem st storageKey with
  | Except.ok v => v
  | Except.error _ => none

/-- `ThemeToggle.storeTheme`: the `try`/`catch` around
`localStorage.setItem(this.storageKey, theme)`; a thrown write is caught (a
warning is logged) and the state is left as it was. -/
def storeTheme (st : DomState) (theme : String) : DomState :=
  match rawSetItem st storageKey theme with
  | Except.ok st2 => st2
  | Except.error _ => st

/-- `ThemeToggle.getSystemTheme`: `'dark'` when the
`prefers-color-scheme: dark` media query matches, `'light'` otherwise. -/
def getSystemTheme (st : DomState) : String :=
  if st.systemDark then themeDark else themeLight

/-- JavaScript `Boolean.prototype.toString`. -/
def boolToString (b : Bool) : String := if b then "true" else "false"

/-- JavaScript truthiness of a `string | null` value (`null` and the empty
string are falsy). -/
def jsTruthy : Option String → Prop
  | none => False
  | some s => s ≠ ""

instance (o : Option String) : Decidable (jsTruthy o) := by
  cases o with
  | none => exact isFalse (fun h => h)
  | some s => exact inferInstanceAs (Decidable (s ≠ ""))

/-- `ThemeToggle.updateButtonAria`: sets `aria-pressed` to the string form
of `theme === 'dark'` and the matching `aria-label`. -/
def updateButtonAria (button : ToggleButton) (theme : String) : ToggleButton :=
  let isDark := decide (theme = themeDark)
  { button with
    ariaPressed := some (boolToString isDark)
    ariaLabel := some (if isDark then "Switch to light theme"
                       else "Switch to dark theme") }

/-- `ThemeToggle.updateButtonVisual`: toggles the two state classes and,
when the text/icon child elements exist, rewrites their contents. -/
def updateButtonVisual (button : ToggleButton) (theme : String) : ToggleButton :=
  let isDark := decide (theme = themeDark)
  { button with
    classDark := isDark
    classLight := !isDark
    textContent := button.textContent.map
      (fun _ => if isDark then "false" else "true")
    iconContent := button.iconContent.map
      (fun _ => if isDark then "🌙" else "☀️") }

/-- `ThemeToggle.updateToggleButtons`: applies `updateButtonAria` and
`updateButtonVisual` to every `[data-theme-toggle]` element. -/
def updateToggleButtons (st : DomState) (theme : String) : DomState :=
  { st with buttons :=
      st.buttons.map (fun b => updateButtonVisual (updateButtonAria b theme) theme) }

/-- `ThemeToggle.applyTheme`: removes `data-theme`, re-sets it unless the
theme is `'auto'`, and refreshes the toggle buttons.  (The dispatched
`themechange` event carries no state that this model observes.) -/
def applyTheme (st : DomState) (theme : String) : DomState :=
  let st1 := { st with dataTheme := none }
  let st2 := if theme = themeAuto then st1 else { st1 with dataTheme := some theme }
  updateToggleButtons st2 theme

/-- `ThemeToggle.getCurrentTheme`: the `data-theme` attribute when it is set
to a truthy value, otherwise the resolved system theme. -/
def getCurrentTheme (st : DomState) : String :=
  match st.dataTheme with
  | some t => if t = "" then getSystemTheme st else t
  | none => getSystemTheme st

/-- `ThemeToggle.toggle`: flips to dark when the current resolved theme is
light and to light otherwise, then applies and stores the new theme. -/
def toggle (st : DomState) : DomState :=
  let currentTheme := getCurrentTheme st
  let newTheme := if currentTheme = themeLight then themeDark else themeLight
  storeTheme (applyTheme st newTheme) newTheme

/-- `ThemeToggle.setTheme`: applies and stores the argument only when it is
one of the three known theme strings; otherwise only a warning is logged. -/
def setTheme (st : DomState) (theme : String) : DomState :=
  if theme ∈ themeValues then storeTheme (applyTheme st theme) theme else st

/-- `ThemeToggle.setInitialTheme`: an existing (truthy) stored preference is
applied; otherwise the system preference is applied and stored. -/
def setInitialTheme (st : DomState) : DomState :=
  let storedTheme := getStoredTheme st
  let systemTheme := getSystemTheme st
  if jsTruthy storedTheme then applyTheme st (storedTheme.getD "")
  else storeTheme (applyTheme st systemTheme) systemTheme

/-- `ThemeToggle.handleSystemThemeChange`: reacting to a media-query change
event whose `matches` field is `eMatches`; only updates the applied theme
when no truthy preference is stored or the stored preference is `'auto'`. -/
def handleSystemThemeChange (st : DomState) (eMatches : Bool) : DomState :=
  let storedTheme := getStoredTheme st
  if ¬ jsTruthy storedTheme ∨ storedTheme = some themeAuto then
    applyTheme st (if eMatches then themeDark else themeLight)
  else st

/-- One user-visible operation of the theme manager: initialization
(`setInitialTheme`), a toggle action (button click or the Ctrl+Shift+T
shortcut), an explicit `setTheme` call, or an OS color-scheme change
delivered to the registered media-query listener. -/
inductive ThemeOp where
  | initOp : ThemeOp
  | toggleOp : ThemeOp
  | setThemeOp : String → ThemeOp
  | systemChangeOp : Bool → ThemeOp

/-- One step of the theme manager.  For `systemChangeOp m` the OS preference
itself changes to `m` and the event handed to `handleSystemThemeChange`
reports `matches = m`. -/
def stepOp (st : DomState) : ThemeOp → DomState
  | ThemeOp.initOp => setInitialTheme st
  | ThemeOp.toggleOp => toggle st
  | ThemeOp.setThemeOp t => setTheme st t
  | ThemeOp.systemChangeOp m =>
      handleSystemThemeChange { st with systemDark := m } m

/-- A sequence of theme-manager operations, run left to right. -/
def runOps (st : DomState) : List ThemeOp → DomState
  | [] => st
  | op :: ops => runOps (stepOp st op) ops

/-- Relation between two `localStorage` snapshots: all keys other than
`storageKey` agree, and at `storageKey` the newer snapshot holds either the
older snapshot's value or one of the three valid theme strings. -/
def storagePreserved (s s' : List (String × String)) : Prop :=
  (∀ k, k ≠ storageKey → lsGet s' k = lsGet s k) ∧
  (lsGet s' storageKey = lsGet s storageKey ∨
    ∃ v, v ∈ themeValues ∧ lsGet s' storageKey = some v)

theorem lsGet_lsSet_self {α : Type} (s : List (String × α)) (k : String) (v : α) :
    lsGet (lsSet s k v) k = some v := by
  induction s with
  | nil => simp [lsGet, lsSet]
  | cons p rest ih =>
    by_cases h : p.1 = k
    · simp [lsSet, lsGet, h]
    · simp [lsSet, lsGet, h, ih]

theorem lsGet_lsSet_ne {α : Type} (s : List (String × α)) (k k' : String) (v : α)
    (h : k' ≠ k) : lsGet (lsSet s k v) k' = lsGet s k' := by
  induction s with
  | nil => simp [lsGet, lsSet, Ne.symm h]
  | cons p rest ih =>
    by_cases hp : p.1 = k
    · subst hp
      simp [lsSet, lsGet, h, Ne.symm h]
    · by_cases hp' : p.1 = k'
      · simp [lsSet, lsGet, hp, hp', h]
      · simp [lsSet, lsGet, hp, hp', h, ih]

theorem applyTheme_storage (st : DomState) (t : String) :
    (applyTheme st t).storage = st.storage := by
  unfold applyTheme updateToggleButtons
  by_cases h : t = themeAuto <;> simp [h]

theorem applyTheme_storageWriteFails (st : DomState) (t : String) :
    (applyTheme st t).storageWriteFails = st.storageWriteFails := by
  unfold applyTheme updateToggleButtons
  by_cases h : t = themeAuto <;> simp [h]

theorem applyTheme_dataTheme (st : DomState) (t : String) :
    (applyTheme st t).dataTheme = if t = themeAuto then none else some t := by
  unfold applyTheme updateToggleButtons
  by_cases h : t = themeAuto <;> simp [h]

theorem applyTheme_buttons (st : DomState) (t : String) :
    (applyTheme st t).buttons =
      st.buttons.map (fun b => updateButtonVisual (updateButtonAria b t) t) := by
  unfold applyTheme updateToggleButtons
  by_cases h : t = themeAuto <;> simp [h]

theorem storeTheme_storage (st : DomState) (t : String) :
    (storeTheme st t).storage = st.storage ∨
      (storeTheme st t).storage = lsSet st.storage storageKey t := by
  unfold storeTheme rawSetItem
  by_cases h : st.storageWriteFails <;> simp [h]

theorem storeTheme_storage_ok (st : DomState) (t : String)
    (h : st.storageWriteFails = false) :
    (storeTheme st t).storage = lsSet st.storage storageKey t := by
  unfold storeTheme rawSetItem
  simp [h]

theorem storeTheme_dataTheme (st : DomState) (t : String) :
    (storeTheme st t).dataTheme = st.dataTheme := by
  unfold storeTheme rawSetItem
  by_cases h : st.storageWriteFails <;> simp [h]

theorem storeTheme_buttons (st : DomState) (t : String) :
    (storeTheme st t).buttons = st.buttons := by
  unfold storeTheme rawSetItem
  by_cases h : st.storageWriteFails <;> simp [h]

theorem getSystemTheme_mem (st : DomState) : getSystemTheme st ∈ themeValues := by
  unfold getSystemTheme
  by_cases h : st.systemDark <;> simp [h, themeValues]

theorem stepOp_storage (st : DomState) (op : ThemeOp) :
    (stepOp st op).storage = st.storage ∨
      ∃ v, v ∈ themeValues ∧
        (stepOp st op).storage = lsSet st.storage storageKey v := by
  cases op with
  | initOp =>
    simp only [stepOp, setInitialTheme]
    by_cases h : jsTruthy (getStoredTheme st)
    · rw [if_pos h]
      exact Or.inl (applyTheme_storage st _)
    · rw [if_neg h]
      rcases storeTheme_storage (applyTheme st (getSystemTheme st)) (getSystemTheme st)
        with hcase | hcase
      · rw [hcase, applyTheme_storage]
        exact Or.inl rfl
      · rw [hcase, applyTheme_storage]
        exact Or.inr ⟨getSystemTheme st, getSystemTheme_mem st, rfl⟩
  | toggleOp =>
    simp only [stepOp, toggle]
    set newTheme := if getCurrentTheme st = themeLight then themeDark else themeLight
      with hnew
    have hmem : newTheme ∈ themeValues := by
      rw [hnew]
      by_cases h : getCurrentTheme st = themeLight <;> simp [h, themeValues]
    rcases storeTheme_storage (applyTheme st newTheme) newTheme with hcase | hcase
    · rw [hcase, applyTheme_storage]
      exact Or.inl rfl
    · rw [hcase, applyTheme_storage]
      exact Or.inr ⟨newTheme, hmem, rfl⟩
  | setThemeOp t =>
    simp only [stepOp, setTheme]
    by_cases h : t ∈ themeValues
    · rw [if_pos h]
      rcases storeTheme_storage (applyTheme st t) t with hcase | hcase
      · rw [hcase, applyTheme_storage]
        exact Or.inl rfl
      · rw [hcase, applyTheme_storage]
        exact Or.inr ⟨t, h, rfl⟩
    · rw [if_neg h]
      exact Or.inl rfl
  | systemChangeOp m =>
    simp only [stepOp, handleSystemThemeChange]
    by_cases h : ¬ jsTruthy (getStoredTheme { st with systemDark := m }) ∨
        getStoredTheme { st with systemDark := m } = some themeAuto
    · rw [if_pos h]
      exact Or.inl (applyTheme_storage _ _)
    · rw [if_neg h]
      exact Or.inl rfl

theorem storagePreserved_refl (s : List (String × String)) :
    storagePreserved s s :=
  ⟨fun _ _ => rfl, Or.inl rfl⟩

theorem storagePreserved_trans {a b c : List (String × String)}
    (hab : storagePreserved a b) (hbc : storagePreserved b c) :
    storagePreserved a c := by
  refine ⟨fun k hk => (hbc.1 k hk).trans (hab.1 k hk), ?_⟩
  rcases hbc.2 with h | ⟨v, hv, h⟩
  · rcases hab.2 with h' | ⟨v, hv, h'⟩
    · exact Or.inl (h.trans h')
    · exact Or.inr ⟨v, hv, h.trans h'⟩
  · exact Or.inr ⟨v, hv, h⟩

theorem stepOp_storagePreserved (st : DomState) (op : ThemeOp) :
    storagePreserved st.storage (stepOp st op).storage := by
  rcases stepOp_storage st op with h | ⟨v, hv, h⟩
  · rw [h]; exact storagePreserved_refl _
  · rw [h]
    exact ⟨fun k hk => lsGet_lsSet_ne _ _ _ _ hk,
      Or.inr ⟨v, hv, lsGet_lsSet_self _ _ _⟩⟩

theorem runOps_storagePreserved (ops : List ThemeOp) (st : DomState) :
    storagePreserved st.storage (runOps st ops).storage := by
  induction ops generalizing st with
  | nil => exact storagePreserved_refl _
  | cons op ops ih =>
    exact storagePreserved_trans (stepOp_storagePreserved st op) (ih (stepOp st op))

theorem getCurrentTheme_some (st : DomState) (t : String)
    (h : st.dataTheme = some t) (hne : t ≠ "") : getCurrentTheme st = t := by
  simp only [getCurrentTheme, h]
  rw [if_neg hne]

theorem getSystemTheme_ne_auto (st : DomState) : getSystemTheme st ≠ themeAuto := by
  unfold getSystemTheme
  by_cases h : st.systemDark <;> simp [h] <;> decide

theorem getSystemTheme_ne_empty (st : DomState) : getSystemTheme st ≠ "" := by
  unfold getSystemTheme
  by_cases h : st.systemDark <;> simp [h] <;> decide

/-- A sample browser state with an explicit `'light'` preference stored and
one toggle button present. -/
def sampleStoredLight : DomState :=
  { storage := [(storageKey, themeLight)]
    storageReadFails := false
    storageWriteFails := false
    systemDark := true
    dataTheme := some themeLight
    buttons := [{ ariaPressed := none, ariaLabel := none, classDark := false,
                  classLight := false, textContent := none, iconContent := none }] }

/-- A sample browser state with empty storage and a dark OS preference. -/
def sampleEmpty : DomState :=
  { storage := []
    storageReadFails := false
    storageWriteFails := false
    systemDark := true
    dataTheme := none
    buttons := [] }

/-- A sample browser state whose storage reads and writes both throw. -/
def sampleFailing : DomState :=
  { storage := [("unrelated", "x")]
    storageReadFails := true
    storageWriteFails := true
    systemDark := false
    dataTheme := none
    buttons := [] }

/-- C1: for every OS color-scheme change event, `handleSystemThemeChange`
leaves the state (in particular the applied theme) unchanged when an
explicit `'light'` or `'dark'` preference is stored, and re-applies the
resolved system theme exactly when no truthy preference is stored or the
stored value is `'auto'`. -/
theorem handleSystemThemeChange_respects_stored (st : DomState) (m : Bool) :
    ((getStoredTheme st = some themeLight ∨ getStoredTheme st = some themeDark) →
      handleSystemThemeChange st m = st) ∧
    ((¬ jsTruthy (getStoredTheme st) ∨ getStoredTheme st = some themeAuto) →
      handleSystemThemeChange st m =
        applyTheme st (if m then themeDark else themeLight)) := by
  constructor
  · intro h
    have hcond : ¬ (¬ jsTruthy (getStoredTheme st) ∨
        getStoredTheme st = some themeAuto) := by
      rcases h with h | h <;> rw [h] <;> decide
    simp only [handleSystemThemeChange]
    rw [if_neg hcond]
  · intro h
    simp only [handleSystemThemeChange]
    rw [if_pos h]

/-- Witness for C1: with `'light'` stored, an OS switch to dark changes
nothing. -/
theorem handleSystemThemeChange_respects_stored_witness :
    handleSystemThemeChange sampleStoredLight true = sampleStoredLight :=
  (handleSystemThemeChange_respects_stored sampleStoredLight true).1
    (Or.inl (by decide))

/-- C3: a toggle action computes the new theme (dark when the current
resolved theme is light, light otherwise), persists it under `storageKey`
(when storage writes succeed), and updates every toggle button so that
`aria-pressed` equals `"true"` exactly when the new theme is dark, with the
matching `aria-label`. -/
theorem toggle_persists_and_updates_buttons (st : DomState)
    (h : st.storageWriteFails = false) :
    lsGet (toggle st).storage storageKey =
      some (if getCurrentTheme st = themeLight then themeDark else themeLight) ∧
    ∀ b ∈ (toggle st).buttons,
      (b.ariaPressed = some "true" ↔
        (if getCurrentTheme st = themeLight then themeDark else themeLight) =
          themeDark) ∧
      b.ariaLabel = some
        (if (if getCurrentTheme st = themeLight then themeDark else themeLight) =
            themeDark
         then "Switch to light theme" else "Switch to dark theme") := by
  have hw : (applyTheme st
      (if getCurrentTheme st = themeLight then themeDark else themeLight)).storageWriteFails
      = false := by
    rw [applyTheme_storageWriteFails]; exact h
  constructor
  · simp only [toggle]
    rw [storeTheme_storage_ok _ _ hw, applyTheme_storage, lsGet_lsSet_self]
  · intro b hb
    simp only [toggle] at hb
    rw [storeTheme_buttons, applyTheme_buttons] at hb
    rcases List.mem_map.mp hb with ⟨a, _, rfl⟩
    by_cases hc : getCurrentTheme st = themeLight <;>
      simp +decide [hc, updateButtonVisual, updateButtonAria, boolToString,
        themeDark, themeLight]

/-- Witness for C3 at a concrete state whose resolved theme is light. -/
theorem toggle_persists_and_updates_buttons_witness :
    lsGet (toggle sampleStoredLight).storage storageKey =
      some (if getCurrentTheme sampleStoredLight = themeLight
            then themeDark else themeLight) :=
  (toggle_persists_and_updates_buttons sampleStoredLight rfl).1

/-- C4: on initialization with no stored preference the displayed theme is
the resolved OS preference (dark when the media query matches, light
otherwise), and a stored (truthy) preference is applied instead. -/
theorem setInitialTheme_resolution (st : DomState) :
    (getStoredTheme st = none →
      getCurrentTheme (setInitialTheme st) =
        (if st.systemDark then themeDark else themeLight)) ∧
    (∀ t, getStoredTheme st = some t → t ≠ "" →
      setInitialTheme st = applyTheme st t) := by
  constructor
  · intro h
    have h1 : setInitialTheme st =
        storeTheme (applyTheme st (getSystemTheme st)) (getSystemTheme st) := by
      simp only [setInitialTheme]
      rw [h]
      rw [if_neg (show ¬ jsTruthy none from fun hh => hh)]
    have hd : (storeTheme (applyTheme st (getSystemTheme st))
        (getSystemTheme st)).dataTheme = some (getSystemTheme st) := by
      rw [storeTheme_dataTheme, applyTheme_dataTheme,
        if_neg (getSystemTheme_ne_auto st)]
    rw [h1, getCurrentTheme_some _ _ hd (getSystemTheme_ne_empty st)]
    rfl
  · intro t ht hne
    simp only [setInitialTheme]
    rw [ht]
    have hj : jsTruthy (some t) := hne
    rw [if_pos hj]
    simp [Option.getD]

/-- Witness for C4: with empty storage and a dark OS preference, the
displayed theme after initialization is dark. -/
theorem setInitialTheme_resolution_witness :
    getCurrentTheme (setInitialTheme sampleEmpty) =
      (if sampleEmpty.systemDark then themeDark else themeLight) :=
  (setInitialTheme_resolution sampleEmpty).1 rfl

/-- C5: after any sequence of theme-manager operations, storage keys other
than `storageKey` are untouched, the value at `storageKey` is either its
original value or one of the three valid theme strings, every single step
either leaves storage unchanged or writes a valid theme string under
`storageKey`, and `setTheme` rejects arguments outside the valid set. -/
theorem theme_storage_single_key_invariant (st : DomState) (ops : List ThemeOp) :
    (∀ op, (stepOp st op).storage = st.storage ∨
      ∃ v, v ∈ themeValues ∧
        (stepOp st op).storage = lsSet st.storage storageKey v) ∧
    (∀ k, k ≠ storageKey →
      lsGet (runOps st ops).storage k = lsGet st.storage k) ∧
    (lsGet (runOps st ops).storage storageKey = lsGet st.storage storageKey ∨
      ∃ v, v ∈ themeValues ∧
        lsGet (runOps st ops).storage storageKey = some v) ∧
    (∀ t, t ∉ themeValues → setTheme st t = st) := by
  refine ⟨stepOp_storage st, (runOps_storagePreserved ops st).1,
    (runOps_storagePreserved ops st).2, ?_⟩
  intro t ht
  simp only [setTheme]
  rw [if_neg ht]

/-- Witness for C5: a toggle followed by an init leaves an unrelated
storage key untouched. -/
theorem theme_storage_single_key_invariant_witness :
    lsGet (runOps sampleStoredLight
      [ThemeOp.toggleOp, ThemeOp.initOp]).storage "other-key" =
      lsGet sampleStoredLight.storage "other-key" :=
  (theme_storage_single_key_invariant sampleStoredLight
    [ThemeOp.toggleOp, ThemeOp.initOp]).2.1 "other-key" (by decide)

/-- C6: a throwing storage read is caught and `getStoredTheme` returns
`null`, and a throwing storage write is caught and `storeTheme` returns with
the state unchanged; neither propagates the exception (both are total
functions out of the raw `Except`-valued accessors). -/
theorem storage_failures_contained (st : DomState) :
    (st.storageReadFails = true → getStoredTheme st = none) ∧
    (st.storageWriteFails = true → ∀ t, storeTheme st t = st) := by
  constructor
  · intro h
    simp [getStoredTheme, rawGetItem, h]
  · intro h t
    simp [storeTheme, rawSetItem, h]

/-- Witness for C6 at a concrete state whose storage throws. -/
theorem storage_failures_contained_witness :
    getStoredTheme sampleFailing = none ∧
      storeTheme sampleFailing themeDark = sampleFailing :=
  ⟨(storage_failures_contained sampleFailing).1 rfl,
   (storage_failures_contained sampleFailing).2 rfl themeDark⟩

end ThemeToggle

namespace ContactFormValidator

/-- Outcome of one `fetch` call to a submission endpoint: the promise either
rejects (a network error, caught by the surrounding `try`/`catch`) or
resolves with a response whose `ok` flag is given. -/
inductive FetchOutcome where
  | rejected : FetchOutcome
  | response : Bool → FetchOutcome
deriving DecidableEq

/-- Whether an attempt against one endpoint succeeds: a rejected fetch is
caught (`continue`), and only `response.ok` returns from the loop. -/
def attemptOk : FetchOutcome → Bool
  | FetchOutcome.rejected => false
  | FetchOutcome.response ok => ok

/-- The fetch outcomes of the two configured services, in the order of the
`services` array of `submitFormData`: Formspree first, then Netlify Forms
(the page's own URL). -/
structure SubmitEnv where
  formspree : FetchOutcome
  netlify : FetchOutcome
deriving DecidableEq

/-- The resolution value of `submitFormData` plus the observable submission
behaviour: which endpoints were attempted (in order) and whether the
`mailto:` fallback navigation happened. -/
structure SubmitResult where
  success : Bool
  service : String
  mailtoOpened : Bool
  attempts : List String
deriving DecidableEq

/-- The `for (const service of services)` loop of `submitFormData`: each
service is fetched in turn; a rejected fetch is caught and the loop
continues, a non-ok response falls through to the next service, and an ok
response returns that service's name.  Yields the attempted service names
in order, together with the succeeding service's name if any. -/
def runServices : List (String × FetchOutcome) → List String × Option String
  | [] => ([], none)
  | (name, out) :: rest =>
    if attemptOk out then ([name], some name)
    else
      let r := runServices rest
      (name :: r.1, r.2)

/-- `ContactFormValidator.submitFormData`: tries Formspree, then Netlify
Forms; when no service succeeds it calls `fallbackToMailto` (which
navigates to a `mailto:` link) and still resolves with `success: true` and
service `'mailto'`. -/
def submitFormData (env : SubmitEnv) : SubmitResult :=
  let r := runServices
    [("Formspree", env.formspree), ("Netlify Forms", env.netlify)]
  match r.2 with
  | some name =>
      { success := true, service := name, mailtoOpened := false, attempts := r.1 }
  | none =>
      { success := true, service := "mailto", mailtoOpened := true, attempts := r.1 }

/-- The promise of `submitFormData` as observed by `submitForm`: every
fetch rejection happens inside the loop's `try`/`catch`, so for every
combination of endpoint outcomes the promise resolves (`Except.ok`). -/
def submitFormDataE (env : SubmitEnv) : Except String SubmitResult :=
  Except.ok (submitFormData env)

/-- The status class passed to `showFormStatus` (`loading`, `success` or
`error`). -/
inductive FormStatus where
  | loading : FormStatus
  | success : FormStatus
  | error : FormStatus
deriving DecidableEq

/-- The `try`/`catch` of `ContactFormValidator.submitForm` around
`await this.submitFormData(data)`: a resolved promise shows the success
status, a rejected one the error status. -/
def submitForm (env : SubmitEnv) : FormStatus :=
  match submitFormDataE env with
  | Except.ok _ => FormStatus.success
  | Except.error _ => FormStatus.error

/-- C2: for every submission of a validated form, the Formspree endpoint is
attempted first; the Netlify endpoint is attempted exactly when the
Formspree attempt fails (rejection or non-ok response); and the `mailto:`
link is opened exactly when both endpoint attempts fail. -/
theorem submitFormData_endpoint_order (env : SubmitEnv) :
    (submitFormData env).attempts.head? = some "Formspree" ∧
    ("Netlify Forms" ∈ (submitFormData env).attempts ↔
      attemptOk env.formspree = false) ∧
    ((submitFormData env).mailtoOpened = true ↔
      (attemptOk env.formspree = false ∧ attemptOk env.netlify = false)) := by
  cases hf : attemptOk env.formspree <;> cases hn : attemptOk env.netlify <;>
    simp +decide [submitFormData, runServices, hf, hn]

/-- An environment in which Formspree rejects and Netlify answers non-ok. -/
def envBothFail : SubmitEnv :=
  { formspree := FetchOutcome.rejected, netlify := FetchOutcome.response false }

/-- Witness for C2: with both endpoints failing, Formspree is attempted
first and the mailto fallback opens. -/
theorem submitFormData_endpoint_order_witness :
    (submitFormData envBothFail).attempts.head? = some "Formspree" ∧
      (submitFormData envBothFail).mailtoOpened = true :=
  ⟨(submitFormData_endpoint_order envBothFail).1,
   (submitFormData_endpoint_order envBothFail).2.2.mpr ⟨rfl, rfl⟩⟩

/-- C10: `submitFormData` never rejects because of endpoint failures: it
always resolves with `success: true`, with service `'mailto'` when both
endpoints fail, so `submitForm`'s catch branch is unreachable via endpoint
failures and the user sees the success status even then. -/
theorem submitFormData_never_rejects (env : SubmitEnv) :
    (submitFormData env).success = true ∧
    submitFormDataE env = Except.ok (submitFormData env) ∧
    submitForm env = FormStatus.success ∧
    (attemptOk env.formspree = false → attemptOk env.netlify = false →
      (submitFormData env).service = "mailto" ∧
      (submitFormData env).mailtoOpened = true) := by
  refine ⟨?_, rfl, rfl, ?_⟩
  · cases hf : attemptOk env.formspree <;> cases hn : attemptOk env.netlify <;>
      simp [submitFormData, runServices, hf, hn]
  · intro hf hn
    simp [submitFormData, runServices, hf, hn]

/-- Witness for C10: with both endpoints failing, the promise resolves with
the mailto service and the success status is shown. -/
theorem submitFormData_never_rejects_witness :
    (submitFormData envBothFail).service = "mailto" ∧
      submitForm envBothFail = FormStatus.success :=
  ⟨((submitFormData_never_rejects envBothFail).2.2.2 rfl rfl).1,
   (submitFormData_never_rejects envBothFail).2.2.1⟩

/-- Validation rules for one field: the objects of the `fields` array in
`validateForm`, or the result of `getFieldRules`. -/
structure FieldRules where
  required : Bool
  ftype : Option String
  minLength : Option Nat
  maxLength : Option Nat
deriving DecidableEq

/-- A form input element with the DOM state the two validators read: id,
`name` attribute, current value, presence of the associated `#<id>-error`
element, the `required` attribute, the `type` attribute, the parsed
`minlength`/`maxlength` attributes, the resolved label text that
`getFieldLabel` in `accessibility.js` computes from the `label[for=...]`
element, and the element's class-list state entering validation (needed
because `clearFieldError` removes `error` but not `valid`). -/
structure FormInput where
  id : String
  nameAttr : String
  value : String
  hasErrorElement : Bool
  requiredAttr : Bool
  itype : String
  minlengthAttr : Option Nat
  maxlengthAttr : Option Nat
  labelText : String
  classErrorBefore : Bool
  classValidBefore : Bool
deriving DecidableEq

/-- JavaScript `String.prototype.trim`: strips leading and trailing
whitespace. -/
def jsTrim (s : String) : String :=
  String.mk
    (((s.data.dropWhile Char.isWhitespace).reverse.dropWhile
      Char.isWhitespace).reverse)

/-- `ContactFormValidator.capitalize`: uppercases the first character. -/
def capitalize (s : String) : String :=
  match s.data with
  | [] => ""
  | c :: cs => String.mk (c.toUpper :: cs)

/-- A character matching the `[^\s@]` class of the email regex. -/
def emailChar (c : Char) : Bool := !c.isWhitespace && c != '@'

/-- `ContactFormValidator.isValidEmail`, the regex
`[^\s@]+@[^\s@]+[.][^\s@]+` anchored on both sides: some decomposition into
a nonempty local part, `@`, a nonempty middle, a dot, and a nonempty tail,
with all three segments made of `[^\s@]` characters. -/
def isValidEmail (s : String) : Bool :=
  let cs := s.data
  let n := cs.length
  (List.range n).any fun i =>
    (List.range n).any fun j =>
      decide (1 ≤ i) && decide (i + 2 ≤ j) && decide (j + 1 < n) &&
      (cs.getD i ' ' == '@') && (cs.getD j ' ' == '.') &&
      (cs.take i).all emailChar &&
      ((cs.drop (i + 1)).take (j - i - 1)).all emailChar &&
      ((cs.drop (j + 1)).all emailChar)

/-- JavaScript `x || d` for the numeric rule defaults of `getFieldRules`
(`null` and `0` are falsy). -/
def orDefault (o : Option Nat) (d : Nat) : Nat :=
  match o with
  | some n => if n = 0 then d else n
  | none => d

/-- `ContactFormValidator.getFieldRules`: rules derived from the element's
own attributes, with per-id defaults for name, subject and message. -/
def getFieldRules (input : FormInput) : FieldRules :=
  let base : FieldRules :=
    { required := input.requiredAttr, ftype := some input.itype,
      minLength := input.minlengthAttr, maxLength := input.maxlengthAttr }
  if input.id = "name" then
    { base with minLength := some (orDefault base.minLength 2),
                maxLength := some (orDefault base.maxLength 100) }
  else if input.id = "subject" then
    { base with minLength := some (orDefault base.minLength 5),
                maxLength := some (orDefault base.maxLength 200) }
  else if input.id = "message" then
    { base with minLength := some (orDefault base.minLength 10),
                maxLength := some (orDefault base.maxLength 2000) }
  else base

/-- The observable result of `ContactFormValidator.validateField` on one
input: the boolean it returns plus the field's DOM state afterwards (error
class, valid class, and the `#<id>-error` element's message and classes). -/
structure FieldOutcome where
  valid : Bool
  classError : Bool
  classValid : Bool
  errorText : String
  errorShown : Bool
  errorClass : String
deriving DecidableEq

/-- `ContactFormValidator.validateField` with an explicit rules argument
(the `validateForm` call path).  A missing `#<id>-error` element returns
`true` with no DOM change; otherwise previous errors are cleared and the
checks run in order: required, email format, minimum length, maximum
length; the fallthrough marks the field valid.  (A missing input element
also returns `true`; inputs are modelled as present.) -/
def validateField (input : FormInput) (rules : FieldRules) : FieldOutcome :=
  if !input.hasErrorElement then
    { valid := true, classError := input.classErrorBefore,
      classValid := input.classValidBefore, errorText := "",
      errorShown := false, errorClass := "" }
  else
    let value := jsTrim input.value
    let fieldName := if input.nameAttr = "" then input.id else input.nameAttr
    if rules.required && value == "" then
      { valid := false, classError := true, classValid := false,
        errorText := capitalize fieldName ++ " is required",
        errorShown := true, errorClass := "required-error" }
    else if value == "" && !rules.required then
      { valid := true, classError := false,
        classValid := input.classValidBefore, errorText := "",
        errorShown := false, errorClass := "" }
    else if rules.ftype == some "email" && !(isValidEmail value) then
      { valid := false, classError := true, classValid := false,
        errorText := "Invalid email format",
        errorShown := true, errorClass := "email-error" }
    else if (match rules.minLength with
             | some m => decide (value.length < m)
             | none => false) then
      { valid := false, classError := true, classValid := false,
        errorText := capitalize fieldName ++ " must be at least " ++
          toString (rules.minLength.getD 0) ++ " characters",
        errorShown := true, errorClass := "length-error" }
    else if (match rules.maxLength with
             | some m => decide (m < value.length)
             | none => false) then
      { valid := false, classError := true, classValid := false,
        errorText := capitalize fieldName ++ " must be no more than " ++
          toString (rules.maxLength.getD 0) ++ " characters",
        errorShown := true, errorClass := "length-error" }
    else
      { valid := true, classError := false, classValid := true,
        errorText := "", errorShown := false, errorClass := "" }

/-- The four inputs of the contact form, as looked up by id in
`validateForm`. -/
structure ContactForm where
  nameInput : FormInput
  emailInput : FormInput
  subjectInput : FormInput
  messageInput : FormInput
deriving DecidableEq

/-- Rules entry `{ id: 'name', required: true, minLength: 2 }`. -/
def nameFieldRules : FieldRules :=
  { required := true, ftype := none, minLength := some 2, maxLength := none }

/-- Rules entry `{ id: 'email', required: true, type: 'email' }`. -/
def emailFieldRules : FieldRules :=
  { required := true, ftype := some "email", minLength := none, maxLength := none }

/-- Rules entry `{ id: 'subject', required: true, minLength: 5 }`. -/
def subjectFieldRules : FieldRules :=
  { required := true, ftype := none, minLength := some 5, maxLength := none }

/-- Rules entry `{ id: 'message', required: true, minLength: 10 }`. -/
def messageFieldRules : FieldRules :=
  { required := true, ftype := none, minLength := some 10, maxLength := none }

/-- The `fields` array of `validateForm`, paired with the inputs the ids
resolve to. -/
def formFields (f : ContactForm) : List (FormInput × FieldRules) :=
  [(f.nameInput, nameFieldRules), (f.emailInput, emailFieldRules),
   (f.subjectInput, subjectFieldRules), (f.messageInput, messageFieldRules)]

/-- `ContactFormValidator.validateForm`: validates all four fields and
returns the conjunction of the results. -/
def validateForm (f : ContactForm) : Bool :=
  (formFields f).all fun p => (validateField p.1 p.2).valid

/-- What `ContactFormValidator.handleSubmit` does after
`event.preventDefault()`: a re-entrant submission is ignored, an invalid
form shows the error status text and never reaches `submitForm`, and a
valid form runs `submitForm`. -/
inductive SubmitHandling where
  | ignored : SubmitHandling
  | blocked : String → SubmitHandling
  | submitted : FormStatus → SubmitHandling
deriving DecidableEq

/-- `ContactFormValidator.handleSubmit`. -/
def handleSubmit (f : ContactForm) (isSubmitting : Bool) (env : SubmitEnv) :
    SubmitHandling :=
  if isSubmitting then SubmitHandling.ignored
  else if validateForm f then SubmitHandling.submitted (submitForm env)
  else SubmitHandling.blocked "Please fix the validation errors above."

end ContactFormValidator

namespace AccessibilityJs

/-- The observable result of the standalone `validateField` helper in
`accessibility.js`: the boolean it returns, the `aria-invalid` value
written on the field, the toggled `error` class, and the message and
error-kind class written to the element named by `aria-describedby` (when
that element exists). -/
structure A11yOutcome where
  valid : Bool
  ariaInvalid : String
  classError : Bool
  errorText : String
  errorShown : Bool
  errorClass : String
deriving DecidableEq

/-- The `validateField` helper of `accessibility.js`: an `else if` chain of
required check, email-format check (only for a nonempty email-typed value),
and `minlength` check; then `aria-invalid` and the `error` class are set
from the result.  In the error-kind class choice the email type takes
precedence over the required kind. -/
def validateField (field : ContactFormValidator.FormInput) : A11yOutcome :=
  let value := ContactFormValidator.jsTrim field.value
  let isRequired := field.requiredAttr
  let cond1 := isRequired && value == ""
  let cond2 := !cond1 && (field.itype == "email") && (value != "")
  let emailInvalid := cond2 && !(ContactFormValidator.isValidEmail value)
  let cond3 := !cond1 && !cond2 &&
    (match field.minlengthAttr with
     | some m => decide (value.length < m)
     | none => false)
  let isValid := !(cond1 || emailInvalid || cond3)
  let errorMessage :=
    if cond1 then field.labelText ++ " is required."
    else if emailInvalid then "Please enter a valid email address."
    else if cond3 then
      field.labelText ++ " must be at least " ++
        toString (field.minlengthAttr.getD 0) ++ " characters."
    else ""
  { valid := isValid
    ariaInvalid := if isValid then "false" else "true"
    classError := !isValid
    errorText := errorMessage
    errorShown := !isValid
    errorClass :=
      if isValid then ""
      else if field.itype == "email" then "email-error"
      else if isRequired && value == "" then "required-error"
      else "length-error" }

end AccessibilityJs

namespace ContactFormValidator

/-- C7: when a required contact-form field has an empty trimmed value (and
its error element exists), validation fails for that field, `handleSubmit`
blocks the submission with the error status instead of reaching
`submitForm`, the field gets the `error` class and the
`'<Field> is required'` message, and the accessibility validator sets its
`aria-invalid` to `"true"`. -/
theorem empty_required_field_blocks (f : ContactForm) (env : SubmitEnv)
    (input : FormInput) (rules : FieldRules)
    (hmem : (input, rules) ∈ formFields f)
    (hempty : jsTrim input.value = "")
    (herr : input.hasErrorElement = true)
    (hreq : input.requiredAttr = true) :
    handleSubmit f false env =
      SubmitHandling.blocked "Please fix the validation errors above." ∧
    (validateField input rules).valid = false ∧
    (validateField input rules).classError = true ∧
    (validateField input rules).errorText =
      capitalize (if input.nameAttr = "" then input.id else input.nameAttr) ++
        " is required" ∧
    (AccessibilityJs.validateField input).ariaInvalid = "true" := by
  have hrr : rules.required = true := by
    simp only [formFields, List.mem_cons, List.not_mem_nil, or_false] at hmem
    rcases hmem with h | h | h | h <;>
      · injection h with h1 h2
        simp [h2, nameFieldRules, emailFieldRules, subjectFieldRules,
          messageFieldRules]
  have hv : validateField input rules =
      { valid := false, classError := true, classValid := false,
        errorText :=
          capitalize (if input.nameAttr = "" then input.id else input.nameAttr) ++
            " is required",
        errorShown := true, errorClass := "required-error" } := by
    simp +decide [validateField, herr, hempty, hrr]
  have hvf : validateForm f = false := by
    rw [Bool.eq_false_iff]
    intro hall
    have hcontra := List.all_eq_true.mp hall (input, rules) hmem
    rw [hv] at hcontra
    simp at hcontra
  refine ⟨?_, ?_, ?_, ?_, ?_⟩
  · simp [handleSubmit, hvf]
  · rw [hv]
  · rw [hv]
  · rw [hv]
  · simp +decide [AccessibilityJs.validateField, hreq, hempty]

/-- A contact form whose name field is empty (its other fields are filled
in correctly). -/
def sampleInvalidForm : ContactForm :=
  { nameInput :=
      { id := "name", nameAttr := "name", value := "", hasErrorElement := true,
        requiredAttr := true, itype := "text", minlengthAttr := none,
        maxlengthAttr := none, labelText := "Name", classErrorBefore := false,
        classValidBefore := false }
    emailInput :=
      { id := "email", nameAttr := "email", value := "a@b.c",
        hasErrorElement := true, requiredAttr := true, itype := "email",
        minlengthAttr := none, maxlengthAttr := none, labelText := "Email",
        classErrorBefore := false, classValidBefore := false }
    subjectInput :=
      { id := "subject", nameAttr := "subject", value := "Hello there",
        hasErrorElement := true, requiredAttr := true, itype := "text",
        minlengthAttr := none, maxlengthAttr := none, labelText := "Subject",
        classErrorBefore := false, classValidBefore := false }
    messageInput :=
      { id := "message", nameAttr := "message", value := "A long enough message",
        hasErrorElement := true, requiredAttr := true, itype := "text",
        minlengthAttr := none, maxlengthAttr := none, labelText := "Message",
        classErrorBefore := false, classValidBefore := false } }

/-- Witness for C7: the sample form with an empty name field is blocked. -/
theorem empty_required_field_blocks_witness :
    handleSubmit sampleInvalidForm false envBothFail =
      SubmitHandling.blocked "Please fix the validation errors above." :=
  (empty_required_field_blocks sampleInvalidForm envBothFail
    sampleInvalidForm.nameInput nameFieldRules
    (by simp [formFields]) (by decide) rfl rfl).1

end ContactFormValidator

namespace NavigationJs

/-- The DOM state of the mobile navigation: the `.mobile-nav-link` elements
in document order (as identifiers), the focused element, the toggle
button's identifier, the toggle's `aria-expanded` attribute, the nav's
`aria-hidden` attribute, the `isAnimating` guard flag of
`initMobileNavigation` (set on toggle, cleared by a 300 ms timeout), and
the body scroll-lock state. -/
structure NavState where
  links : List String
  activeElement : String
  toggleId : String
  ariaExpanded : String
  ariaHidden : String
  isAnimating : Bool
  bodyOverflowHidden : Bool
  bodyNavOpenClass : Bool
deriving DecidableEq

/-- `closeMobileNav` in `navigation.js`: a no-op while `isAnimating`,
otherwise collapses the nav. -/
def closeMobileNav (st : NavState) : NavState :=
  if st.isAnimating then st
  else { st with ariaExpanded := "false", ariaHidden := "true",
                 bodyOverflowHidden := false, bodyNavOpenClass := false }

/-- `toggleMobileNav`: a no-op while `isAnimating`; otherwise flips
`aria-expanded`/`aria-hidden`, locks or unlocks body scroll, and raises the
`isAnimating` flag. -/
def toggleMobileNav (st : NavState) : NavState :=
  if st.isAnimating then st
  else
    let isExpanded := st.ariaExpanded = "true"
    let newState := ¬ isExpanded
    { st with
      ariaExpanded := ThemeToggle.boolToString (decide newState)
      ariaHidden := ThemeToggle.boolToString (decide (¬ newState))
      isAnimating := true
      bodyOverflowHidden := decide newState
      bodyNavOpenClass := decide newState }

/-- The 300 ms `setTimeout` of `toggleMobileNav` firing. -/
def animationDone (st : NavState) : NavState := { st with isAnimating := false }

/-- A keydown dispatched while focus is inside the mobile navigation. -/
inductive NavKey where
  | tab : NavKey
  | shiftTab : NavKey
  | escape : NavKey
deriving DecidableEq

/-- The focus-trap keydown handler (`initFocusManagement` in
`navigation.js`, duplicated on the same element by `accessibility.js`): on
Tab from the last link focus moves to the first, on Shift+Tab from the
first link focus moves to the last; in all other cases the handler does
nothing (the browser default applies). -/
def focusTrapKeydown (st : NavState) (k : NavKey) : NavState :=
  match k with
  | NavKey.shiftTab =>
    match st.links.head? with
    | some firstLink =>
      if st.activeElement = firstLink then
        { st with activeElement := (st.links.getLast?).getD firstLink }
      else st
    | none => st
  | NavKey.tab =>
    match st.links.getLast? with
    | some lastLink =>
      if st.activeElement = lastLink then
        { st with activeElement := (st.links.head?).getD lastLink }
      else st
    | none => st
  | NavKey.escape => st

/-- The Escape branch of the `accessibility.js` nav-level keydown handler:
`mobileToggle.click()` (running `toggleMobileNav`) followed by
`mobileToggle.focus()`.  The deferred focus-first-link timeout of the click
listeners only fires when the click opened the nav, so it is irrelevant to
an Escape that closes it. -/
def a11yEscape (st : NavState) : NavState :=
  let st1 := toggleMobileNav st
  { st1 with activeElement := st.toggleId }

/-- One keydown dispatched while focus is inside the mobile navigation: the
two nav-level handlers run (the `accessibility.js` one handles Tab and
Escape, the `navigation.js` one only Tab), then the document-level Escape
listener of `initMobileNavigation` runs `closeMobileNav`. -/
def navKeydown (st : NavState) (k : NavKey) : NavState :=
  match k with
  | NavKey.escape => closeMobileNav (a11yEscape st)
  | _ => focusTrapKeydown (focusTrapKeydown st k) k

/-- An open mobile navigation still inside the 300 ms animation window
right after being opened. -/
def openAnimating : NavState :=
  { links := ["nav-home", "nav-about"], activeElement := "nav-home",
    toggleId := "nav-toggle", ariaExpanded := "true", ariaHidden := "false",
    isAnimating := true, bodyOverflowHidden := true, bodyNavOpenClass := true }

/-- Counterexample to C8 as stated: while the nav is open but the
`isAnimating` guard is still set (within 300 ms of opening), an Escape
keydown leaves `aria-expanded` as `"true"` and `aria-hidden` as `"false"`
— the navigation is not closed. -/
theorem escape_during_animation_does_not_close :
    openAnimating.ariaExpanded = "true" ∧
    (navKeydown openAnimating NavKey.escape).ariaExpanded = "true" ∧
    (navKeydown openAnimating NavKey.escape).ariaHidden = "false" := by
  decide

/-- C8 (amended): while the mobile navigation is open, a Tab keydown on the
last nav link moves focus to the first link, a Shift+Tab keydown on the
first link moves focus to the last link, and — provided the 300 ms
animation guard is clear — an Escape keydown closes the navigation
(`aria-expanded` becomes `"false"` and `aria-hidden` becomes `"true"`). -/
theorem mobile_nav_focus_trap (st : NavState) (hopen : st.ariaExpanded = "true") :
    (∀ f l, st.links.head? = some f → st.links.getLast? = some l →
      st.activeElement = l → (navKeydown st NavKey.tab).activeElement = f) ∧
    (∀ f l, st.links.head? = some f → st.links.getLast? = some l →
      st.activeElement = f → (navKeydown st NavKey.shiftTab).activeElement = l) ∧
    (st.isAnimating = false →
      (navKeydown st NavKey.escape).ariaExpanded = "false" ∧
      (navKeydown st NavKey.escape).ariaHidden = "true") := by
  refine ⟨?_, ?_, ?_⟩
  · intro f l hf hl hact
    by_cases hfl : f = l <;>
      simp [navKeydown, focusTrapKeydown, hf, hl, hact, hfl]
  · intro f l hf hl hact
    by_cases hfl : l = f <;>
      simp [navKeydown, focusTrapKeydown, hf, hl, hact, hfl]
  · intro hanim
    simp [navKeydown, closeMobileNav, a11yEscape, toggleMobileNav, hanim,
      hopen, ThemeToggle.boolToString]

/-- An open mobile navigation whose opening animation has finished, with
focus on its last link. -/
def openSettled : NavState :=
  { links := ["nav-home", "nav-about"], activeElement := "nav-about",
    toggleId := "nav-toggle", ariaExpanded := "true", ariaHidden := "false",
    isAnimating := false, bodyOverflowHidden := true, bodyNavOpenClass := true }

/-- Witness for C8 (amended): on the settled open nav, Tab wraps from the
last link to the first, and Escape closes. -/
theorem mobile_nav_focus_trap_witness :
    (navKeydown openSettled NavKey.tab).activeElement = "nav-home" ∧
    (navKeydown openSettled NavKey.escape).ariaExpanded = "false" :=
  ⟨(mobile_nav_focus_trap openSettled rfl).1 "nav-home" "nav-about" rfl rfl rfl,
   ((mobile_nav_focus_trap openSettled rfl).2.2 rfl).1⟩

end NavigationJs

namespace ServiceWorkerJs

/-- `CACHE_NAME` in the service worker. -/
def CACHE_NAME : String := "csharp-portfolio-v1"

/-- `STATIC_CACHE_URLS` in the service worker. -/
def STATIC_CACHE_URLS : List String :=
  ["/", "/css/main.css", "/js/bundle.js", "/offline.html"]

/-- A response, as far as the service worker inspects it. -/
structure SWResponse where
  status : Nat
  rtype : String
deriving DecidableEq

/-- The browser's named caches: an association list from cache name to the
cached url/response pairs of that cache. -/
abbrev CacheStore := List (String × List (String × SWResponse))

/-- `caches.open(name)`: the existing cache contents, or a fresh empty
cache. -/
def openCache (store : CacheStore) (name : String) : List (String × SWResponse) :=
  (ThemeToggle.lsGet store name).getD []

/-- `cache.put(url, resp)` on the named cache. -/
def cachePut (store : CacheStore) (name url : String) (resp : SWResponse) :
    CacheStore :=
  ThemeToggle.lsSet store name (ThemeToggle.lsSet (openCache store name) url resp)

/-- `caches.match(request)`: the first response stored for the url across
the caches. -/
def cachesMatch (store : CacheStore) (url : String) : Option SWResponse :=
  match store with
  | [] => none
  | (_, c) :: rest =>
    match ThemeToggle.lsGet c url with
    | some r => some r
    | none => cachesMatch rest url

/-- The install handler: `caches.open(CACHE_NAME)` then
`cache.addAll(STATIC_CACHE_URLS)` — every static url is fetched (`net`;
`addAll` rejects when any fetch fails, so responses are assumed here) and
stored in the version-named cache. -/
def installSW (store : CacheStore) (net : String → SWResponse) : CacheStore :=
  STATIC_CACHE_URLS.foldl (fun s url => cachePut s CACHE_NAME url (net url)) store

/-- The activate handler: deletes every cache whose name differs from
`CACHE_NAME`. -/
def activateSW (store : CacheStore) : CacheStore :=
  store.filter (fun p => decide (p.1 = CACHE_NAME))

/-- The outcome of one network `fetch` inside the fetch handler. -/
inductive NetResult where
  | ok : SWResponse → NetResult
  | rejected : NetResult
deriving DecidableEq

/-- A request, as far as the fetch handler inspects it. -/
structure SWRequest where
  method : String
  url : String
  mode : String
deriving DecidableEq

/-- What the fetch handler does with a request: no `respondWith` call at
all (browser default handling), or a `respondWith` with a response — or
with `undefined`, from the catch branch of a non-navigation request. -/
inductive FetchResult where
  | passthrough : FetchResult
  | respond : Option SWResponse → FetchResult
deriving DecidableEq

/-- JavaScript `String.prototype.startsWith`, used for the same-origin
check `event.request.url.startsWith(self.location.origin)`. -/
def urlStartsWith (url pre : String) : Bool := pre.data.isPrefixOf url.data

/-- The fetch handler: skips non-GET and cross-origin requests; answers
from a cache hit; otherwise fetches from the network and caches only basic
status-200 responses into `CACHE_NAME`; a rejected network fetch yields the
cached offline page for navigation requests, and `undefined` otherwise. -/
def handleFetch (store : CacheStore) (net : String → NetResult) (origin : String)
    (req : SWRequest) : FetchResult × CacheStore :=
  if req.method ≠ "GET" then (FetchResult.passthrough, store)
  else if ¬ urlStartsWith req.url origin then (FetchResult.passthrough, store)
  else
    match cachesMatch store req.url with
    | some cached => (FetchResult.respond (some cached), store)
    | none =>
      match net req.url with
      | NetResult.ok resp =>
        if resp.status ≠ 200 ∨ resp.rtype ≠ "basic" then
          (FetchResult.respond (some resp), store)
        else
          (FetchResult.respond (some resp), cachePut store CACHE_NAME req.url resp)
      | NetResult.rejected =>
        if req.mode = "navigate" then
          (FetchResult.respond (cachesMatch store "/offline.html"), store)
        else (FetchResult.respond none, store)

theorem openCache_cachePut (s : CacheStore) (name url : String) (r : SWResponse) :
    openCache (cachePut s name url r) name =
      ThemeToggle.lsSet (openCache s name) url r := by
  simp [openCache, cachePut, ThemeToggle.lsGet_lsSet_self]

theorem lsGet_activateSW_ne (store : CacheStore) (name : String)
    (h : name ≠ CACHE_NAME) :
    ThemeToggle.lsGet (activateSW store) name = none := by
  induction store with
  | nil => rfl
  | cons p rest ih =>
    by_cases hp : p.1 = CACHE_NAME
    · simp [activateSW, List.filter, hp, ThemeToggle.lsGet, Ne.symm h]
      simpa [activateSW] using ih
    · simp [activateSW, List.filter, hp]
      simpa [activateSW] using ih

/-- C9: for same-origin GET requests the fetch handler answers from the
`csharp-portfolio-v1` cache when the response is cached there (the caches
being the version-named ones, as the activate handler guarantees), and
otherwise fetches from the network, caching only basic status-200
responses; the install handler pre-caches every static url into that
cache; and the activate handler keeps only caches named `CACHE_NAME`,
deleting every other cache. -/
theorem service_worker_cache_first (store : CacheStore) (net : String → NetResult)
    (netOk : String → SWResponse) (origin : String) (req : SWRequest)
    (hget : req.method = "GET")
    (horigin : urlStartsWith req.url origin = true) :
    (∀ r, (∀ p ∈ store, p.1 = CACHE_NAME) →
      ThemeToggle.lsGet (openCache store CACHE_NAME) req.url = some r →
      handleFetch store net origin req = (FetchResult.respond (some r), store)) ∧
    (cachesMatch store req.url = none →
      ∀ resp, net req.url = NetResult.ok resp →
        (handleFetch store net origin req).1 = FetchResult.respond (some resp) ∧
        ((resp.status = 200 ∧ resp.rtype = "basic") →
          (handleFetch store net origin req).2 =
            cachePut store CACHE_NAME req.url resp) ∧
        (¬ (resp.status = 200 ∧ resp.rtype = "basic") →
          (handleFetch store net origin req).2 = store)) ∧
    (∀ url, url ∈ STATIC_CACHE_URLS →
      ThemeToggle.lsGet (openCache (installSW store netOk) CACHE_NAME) url =
        some (netOk url)) ∧
    (∀ p ∈ activateSW store, p.1 = CACHE_NAME) ∧
    (∀ name, name ≠ CACHE_NAME →
      ThemeToggle.lsGet (activateSW store) name = none) := by
  refine ⟨?_, ?_, ?_, ?_, fun name h => lsGet_activateSW_ne store name h⟩
  · intro r hall hhit
    have hmatch : cachesMatch store req.url = some r := by
      cases store with
      | nil => simp [openCache, ThemeToggle.lsGet] at hhit
      | cons p rest =>
        obtain ⟨pn, pc⟩ := p
        have hp := hall (pn, pc) (List.mem_cons_self (pn, pc) rest)
        simp only at hp
        simp [openCache, ThemeToggle.lsGet, hp] at hhit
        simp [cachesMatch, hhit]
    simp [handleFetch, hget, horigin, hmatch]
  · intro hmiss resp hresp
    refine ⟨?_, ?_, ?_⟩
    · simp [handleFetch, hget, horigin, hmiss, hresp]
      by_cases hok : resp.status ≠ 200 ∨ resp.rtype ≠ "basic" <;> simp [hok]
    · intro hok
      simp [handleFetch, hget, horigin, hmiss, hresp, hok.1, hok.2]
    · intro hok
      have hok2 : resp.status ≠ 200 ∨ resp.rtype ≠ "basic" := by
        by_contra hc
        push_neg at hc
        exact hok ⟨hc.1, hc.2⟩
      simp [handleFetch, hget, horigin, hmiss, hresp, hok2]
  · intro url hurl
    have hinst : openCache (installSW store netOk) CACHE_NAME =
        ThemeToggle.lsSet (ThemeToggle.lsSet (ThemeToggle.lsSet (ThemeToggle.lsSet
          (openCache store CACHE_NAME) "/" (netOk "/"))
          "/css/main.css" (netOk "/css/main.css"))
          "/js/bundle.js" (netOk "/js/bundle.js"))
          "/offline.html" (netOk "/offline.html") := by
      simp [installSW, STATIC_CACHE_URLS, List.foldl, openCache_cachePut]
    rw [hinst]
    simp only [STATIC_CACHE_URLS, List.mem_cons, List.not_mem_nil, or_false]
      at hurl
    rcases hurl with h | h | h | h <;> subst h
    · rw [ThemeToggle.lsGet_lsSet_ne _ _ _ _ (by decide),
        ThemeToggle.lsGet_lsSet_ne _ _ _ _ (by decide),
        ThemeToggle.lsGet_lsSet_ne _ _ _ _ (by decide),
        ThemeToggle.lsGet_lsSet_self]
    · rw [ThemeToggle.lsGet_lsSet_ne _ _ _ _ (by decide),
        ThemeToggle.lsGet_lsSet_ne _ _ _ _ (by decide),
        ThemeToggle.lsGet_lsSet_self]
    · rw [ThemeToggle.lsGet_lsSet_ne _ _ _ _ (by decide),
        ThemeToggle.lsGet_lsSet_self]
    · rw [ThemeToggle.lsGet_lsSet_self]
  · intro p hp
    simp only [activateSW, List.mem_filter] at hp
    exact of_decide_eq_true hp.2

/-- A cache store holding only the version-named cache, with the offline
page cached. -/
def sampleSWStore : CacheStore :=
  [(CACHE_NAME, [("/offline.html", { status := 200, rtype := "basic" })])]

/-- Witness for C9: a same-origin GET for the cached offline page is served
from the version-named cache. -/
theorem service_worker_cache_first_witness :
    handleFetch sampleSWStore (fun _ => NetResult.rejected) "/"
      { method := "GET", url := "/offline.html", mode := "navigate" } =
      (FetchResult.respond (some { status := 200, rtype := "basic" }),
        sampleSWStore) :=
  (service_worker_cache_first sampleSWStore (fun _ => NetResult.rejected)
    (fun _ => { status := 200, rtype := "basic" }) "/"
    { method := "GET", url := "/offline.html", mode := "navigate" }
    rfl (by decide)).1 { status := 200, rtype := "basic" }
    (by decide) (by decide)

end ServiceWorkerJs
